import Mathlib

/-!
Verification of the λF Risk Dashboard core pipeline
(`src/lambda_f_dashboard.py`).

The development shallowly embeds the data-handling logic of the dashboard:

* `fetch_lambda_f_data` (source lines 35-68): document projection with the
  `status` default, `dropna` on `timestamp`/`lambda_F`, timestamp parsing
  (which raises on an unparseable value and is caught by the surrounding
  `try`/`except`), ascending sort, and the error path that yields an empty
  frame plus a surfaced message.
* the main-metrics block (source lines 116-148): latest/previous extraction,
  the delta, the status display branch keyed on the stored status string,
  and the no-data branch.
* the spec-side numeric classifier (§4.4) and the weighted-breakdown
  contribution calculator (§4.3), the latter modelled from the spec because
  no breakdown code is present in the repository snapshot.

Timestamps are modelled as naturals (a comparable instant type); floats are
modelled as rationals; a raw stored timestamp is either parseable to an
instant or unparseable.
-/

namespace LambdaF

/-- Raw stored timestamp: either parseable to a comparable instant (modelled
as a natural) or present but unparseable (`pd.to_datetime` raises on it). -/
inductive RawTS
  | valid (t : Nat)
  | invalid (s : String)
deriving DecidableEq, Repr

/-- One Firestore document as consumed by the fetch loop: `doc_data.get`
yields an optional value for each field (source lines 50-54). -/
structure RawDoc where
  timestamp : Option RawTS
  lambda_F  : Option ℚ
  status    : Option String
deriving DecidableEq, Repr

/-- One row of the list `data` built in the fetch loop: the `status` field
is defaulted to "N/A" when absent (source line 53); `timestamp` and
`lambda_F` stay optional (source lines 51-52). -/
structure Row where
  timestamp : Option RawTS
  lambda_F  : Option ℚ
  status    : String
deriving DecidableEq, Repr

/-- Projection of a document into a row (source lines 50-54). -/
def projectRow (d : RawDoc) : Row :=
  ⟨d.timestamp, d.lambda_F, d.status.getD "N/A"⟩

/-- A normalized sample: parsed timestamp, composite value, status string. -/
structure Sample where
  timestamp : Nat
  lambda_F  : ℚ
  status    : String
deriving DecidableEq, Repr

/-- Timestamp order on samples, the sort key of source line 63. -/
def tsLE (a b : Sample) : Prop := a.timestamp ≤ b.timestamp

instance : DecidableRel tsLE :=
  fun a b => inferInstanceAs (Decidable (a.timestamp ≤ b.timestamp))

instance : IsTotal Sample tsLE := ⟨fun a b => Nat.le_total a.timestamp b.timestamp⟩

instance : IsTrans Sample tsLE := ⟨fun _ _ _ h1 h2 => Nat.le_trans h1 h2⟩

/-- Embedding of `df.dropna(subset=['timestamp', 'lambda_F'])`
(source line 60): keep exactly the rows where both fields are present. -/
def dropnaRows (rows : List Row) : List Row :=
  rows.filter (fun r => r.timestamp.isSome && r.lambda_F.isSome)

/-- Parsing one row after `dropna`: an unparseable timestamp raises
(modelled as `Except.error`); a missing field would also raise
(`pd.to_datetime` is only reached by rows that survived `dropna`). -/
def parseRow (r : Row) : Except String Sample :=
  match r.timestamp, r.lambda_F with
  | some (RawTS.valid t), some v => Except.ok ⟨t, v, r.status⟩
  | some (RawTS.invalid s), _ => Except.error s
  | _, _ => Except.error "missing field"

/-- Embedding of `pd.to_datetime(df["timestamp"])` over the whole frame
(source line 61): the first unparseable value makes the whole conversion
raise, so the result is all-or-nothing. -/
def parseRows : List Row → Except String (List Sample)
  | [] => Except.ok []
  | r :: rs =>
    match parseRow r, parseRows rs with
    | Except.ok s, Except.ok ss => Except.ok (s :: ss)
    | Except.error m, _ => Except.error m
    | _, Except.error m => Except.error m

/-- Embedding of `df.sort_values(by="timestamp", ascending=True)`
(source line 63), as a stable comparison sort on the timestamp key. -/
def sortSeries (l : List Sample) : List Sample :=
  List.insertionSort tsLE l

/-- Outcome of the Firestore query: either the stream raises (store
unreachable or query rejected) or it yields a list of documents. -/
inductive FetchInput
  | err (msg : String)
  | docs (ds : List RawDoc)
deriving DecidableEq, Repr

/-- Result of the fetch: the normalized series, plus whether a user-visible
message was surfaced via `st.error` (source line 67). -/
structure FetchResult where
  series : List Sample
  warned : Bool
deriving DecidableEq, Repr

/-- The body of the `try` block for a successful stream (source lines
47-64): build rows, return empty on no data, `dropna`, parse timestamps
(raising falls to the `except` clause: empty frame plus surfaced message,
source lines 66-68), then sort ascending. -/
def fetchDocs (ds : List RawDoc) : FetchResult :=
  if (ds.map projectRow).isEmpty then ⟨[], false⟩
  else
    match parseRows (dropnaRows (ds.map projectRow)) with
    | Except.ok samples => ⟨sortSeries samples, false⟩
    | Except.error _ => ⟨[], true⟩

/-- Embedding of `fetch_lambda_f_data` (source lines 35-68): a `None`
client returns an empty frame (line 41); a raising stream is caught and
converted to an empty frame plus a surfaced message (lines 66-68);
otherwise the documents are normalized by `fetchDocs`. -/
def fetch_lambda_f_data : Option Unit → FetchInput → FetchResult
  | none, _ => ⟨[], false⟩
  | some _, FetchInput.err _ => ⟨[], true⟩
  | some _, FetchInput.docs ds => fetchDocs ds

/-- Severity tier as displayed or classified. -/
inductive Tier
  | Normal
  | Risky
  | Critical
deriving DecidableEq, Repr

/-- Embedding of the status display branch (source lines 139-144): the
tier shown is chosen from the stored status string alone. -/
def displayStatus (s : String) : Tier :=
  if s = "Kritik" ∨ s = "Critical" then Tier.Critical
  else if s = "Riskli" ∨ s = "Risky" then Tier.Risky
  else Tier.Normal

/-- What the main metrics block renders: either the no-data message
(source line 148) or the current value, the delta and the tier. -/
inductive MainView
  | noData
  | metrics (current : ℚ) (delta : ℚ) (tier : Tier)
deriving DecidableEq, Repr

/-- Embedding of the main metrics block (source lines 116-148):
`iloc[-1]` is the head of the reversed series, `iloc[-2]` the next
element; the previous value defaults to 0 when only one sample exists
(line 123); `delta = current - previous` (line 124); the tier is
`displayStatus` of the latest status (lines 139-144). -/
def renderMain (series : List Sample) : MainView :=
  match series.reverse with
  | [] => MainView.noData
  | latest :: rest =>
    let prev : ℚ :=
      match rest with
      | p :: _ => p.lambda_F
      | [] => 0
    MainView.metrics latest.lambda_F (latest.lambda_F - prev)
      (displayStatus latest.status)

/-- Tier shown by a main view, if any. -/
def displayedTier : MainView → Option Tier
  | MainView.noData => none
  | MainView.metrics _ _ t => some t

/-- Delta shown by a main view, if any. -/
def displayedDelta : MainView → Option ℚ
  | MainView.noData => none
  | MainView.metrics _ d _ => some d

/-- Modelled from the spec: the numeric classifier of §4.4 (absent from
the source, which keys its display on the stored status string). It is
the spec-side definition used to compare the display against the claimed
threshold classification: strict comparators, evaluated high to low. -/
def classify (v : ℚ) : Tier :=
  if v > 7/10 then Tier.Critical
  else if v > 1/2 then Tier.Risky
  else Tier.Normal

/-- Component scores of a sample, each optional, in [0,100] nominally. -/
structure SourceScores where
  fearAndGreed : Option ℚ
  redditHype   : Option ℚ
  volumeSpike  : Option ℚ
deriving DecidableEq, Repr

/-- Modelled from the spec: one weighted contribution of §4.3 (the
breakdown variant is not present in the repository snapshot):
`(component / 100) * weight`, and 0 for an absent component. -/
def contribution : Option ℚ → ℚ → ℚ
  | some c, w => c / 100 * w
  | none, _ => 0

/-- Modelled from the spec: the ContributionSet of §3, holding the
original composite alongside the three weighted shares. -/
structure ContributionSet where
  composite    : ℚ
  fngShare     : ℚ
  redditShare  : ℚ
  volumeShare  : ℚ
deriving DecidableEq, Repr

/-- Modelled from the spec: building a ContributionSet with the fixed
weights fearAndGreed=0.4, redditHype=0.3, volumeSpike=0.3 (§4.3). -/
def mkContributionSet (composite : ℚ) (s : SourceScores) : ContributionSet :=
  ⟨composite,
   contribution s.fearAndGreed (4/10),
   contribution s.redditHype (3/10),
   contribution s.volumeSpike (3/10)⟩

/-- Sum of the three weighted shares of a ContributionSet. -/
def contributionSum (c : ContributionSet) : ℚ :=
  c.fngShare + c.redditShare + c.volumeShare

/-- Boolean test for a present-but-unparseable raw timestamp. -/
def isInvalidTS : Option RawTS → Bool
  | some (RawTS.invalid _) => true
  | _ => false

/-- Reinjecting a normalized sample as a raw document, to feed the series
back through the normalization steps. -/
def sampleToDoc (s : Sample) : RawDoc :=
  ⟨some (RawTS.valid s.timestamp), some s.lambda_F, some s.status⟩

/-! ### Helper lemmas -/

/-- The series produced by the fetch is always sorted by timestamp. -/
theorem fetch_series_sorted (db : Option Unit) (inp : FetchInput) :
    List.Sorted tsLE (fetch_lambda_f_data db inp).series := by
  cases db with
  | none => exact List.sorted_nil
  | some u =>
    cases inp with
    | err m => exact List.sorted_nil
    | docs ds =>
      show List.Sorted tsLE (fetchDocs ds).series
      unfold fetchDocs
      split
      · exact List.sorted_nil
      · split
        · exact List.sorted_insertionSort tsLE _
        · exact List.sorted_nil

/-- Reinjected samples survive projection, `dropna` and parsing unchanged. -/
theorem parseRows_roundtrip : ∀ l : List Sample,
    parseRows (dropnaRows ((l.map sampleToDoc).map projectRow)) = Except.ok l
  | [] => rfl
  | a :: t => by
    have ih := parseRows_roundtrip t
    have h1 : ((a :: t).map sampleToDoc).map projectRow
        = projectRow (sampleToDoc a) :: (t.map sampleToDoc).map projectRow := by
      rfl
    have h2 : dropnaRows
          (projectRow (sampleToDoc a) :: (t.map sampleToDoc).map projectRow)
        = projectRow (sampleToDoc a)
            :: dropnaRows ((t.map sampleToDoc).map projectRow) := by
      simp [dropnaRows, projectRow, sampleToDoc]
    rw [h1, h2]
    simp only [parseRows]
    rw [ih]
    rfl

/-- Feeding a sorted series back through the fetch pipeline returns it
unchanged. -/
theorem renorm_of_sorted (l : List Sample) (h : List.Sorted tsLE l) :
    (fetch_lambda_f_data (some ()) (FetchInput.docs (l.map sampleToDoc))).series
      = l := by
  cases l with
  | nil => rfl
  | cons a t =>
    show (fetchDocs ((a :: t).map sampleToDoc)).series = a :: t
    unfold fetchDocs
    rw [if_neg (by simp)]
    rw [parseRows_roundtrip (a :: t)]
    exact h.insertionSort_eq

/-- Successful whole-frame parsing preserves the number of rows. -/
theorem parseRows_length : ∀ (rows : List Row) (l : List Sample),
    parseRows rows = Except.ok l → l.length = rows.length
  | [], l, h => by
    simp only [parseRows, Except.ok.injEq] at h
    subst h; rfl
  | r :: rs, l, h => by
    simp only [parseRows] at h
    cases hr : parseRow r with
    | error m => rw [hr] at h; exact absurd h (by simp)
    | ok s =>
      rw [hr] at h
      cases hrs : parseRows rs with
      | error m => rw [hrs] at h; exact absurd h (by simp)
      | ok ss =>
        rw [hrs] at h
        simp only [Except.ok.injEq] at h
        subst h
        simp [List.length_cons, parseRows_length rs ss hrs]

/-- Every sample of a successful whole-frame parse comes from some row. -/
theorem parseRows_mem : ∀ (rows : List Row) (l : List Sample),
    parseRows rows = Except.ok l → ∀ s ∈ l, ∃ r ∈ rows, parseRow r = Except.ok s
  | [], l, h => by
    simp only [parseRows, Except.ok.injEq] at h
    subst h; intro s hs; exact absurd hs (List.not_mem_nil s)
  | r :: rs, l, h => by
    simp only [parseRows] at h
    cases hr : parseRow r with
    | error m => rw [hr] at h; exact absurd h (by simp)
    | ok s0 =>
      rw [hr] at h
      cases hrs : parseRows rs with
      | error m => rw [hrs] at h; exact absurd h (by simp)
      | ok ss =>
        rw [hrs] at h
        simp only [Except.ok.injEq] at h
        subst h
        intro s hs
        rcases List.mem_cons.mp hs with hs0 | hmem
        · exact ⟨r, List.mem_cons_self r rs, hs0 ▸ hr⟩
        · obtain ⟨r0, hr0, hp⟩ := parseRows_mem rs ss hrs s hmem
          exact ⟨r0, List.mem_cons_of_mem r hr0, hp⟩

/-- A row with an unparseable timestamp makes the whole-frame parse raise. -/
theorem parseRows_error_of_invalid : ∀ (rows : List Row) (r : Row),
    r ∈ rows → isInvalidTS r.timestamp = true →
    ∃ m, parseRows rows = Except.error m
  | [], r, hmem, _ => absurd hmem (List.not_mem_nil r)
  | r0 :: rs, r, hmem, hinv => by
    rcases List.mem_cons.mp hmem with h0 | hmem0
    · subst h0
      have : ∃ m, parseRow r = Except.error m := by
        unfold isInvalidTS at hinv
        unfold parseRow
        cases hts : r.timestamp with
        | none => rw [hts] at hinv; exact absurd hinv (by simp)
        | some ts =>
          cases ts with
          | valid t => rw [hts] at hinv; exact absurd hinv (by simp)
          | invalid s => exact ⟨s, by cases r.lambda_F <;> rfl⟩
      obtain ⟨m, hm⟩ := this
      refine ⟨m, ?_⟩
      simp only [parseRows, hm]
    · obtain ⟨m, hm⟩ := parseRows_error_of_invalid rs r hmem0 hinv
      cases hr0 : parseRow r0 with
      | error m0 => exact ⟨m0, by simp only [parseRows, hr0]⟩
      | ok s0 => exact ⟨m, by simp only [parseRows, hr0, hm]⟩

/-- A successful row parse forces both required fields to be present, with
the parsed values recorded in the sample. -/
theorem parseRow_ok_fields : ∀ (r : Row) (s : Sample),
    parseRow r = Except.ok s →
    r.timestamp = some (RawTS.valid s.timestamp)
      ∧ r.lambda_F = some s.lambda_F
  | ⟨some (RawTS.valid t), some v, st⟩, s, h => by
    have h2 : (⟨t, v, st⟩ : Sample) = s := Except.ok.inj h
    rw [← h2]
    exact ⟨rfl, rfl⟩
  | ⟨some (RawTS.invalid m), lf, st⟩, s, h =>
    absurd h (by simp [parseRow])
  | ⟨some (RawTS.valid t), none, st⟩, s, h =>
    absurd h (by simp [parseRow])
  | ⟨none, lf, st⟩, s, h =>
    absurd h (by simp [parseRow])

/-- Case analysis on the success branch of `fetchDocs`: the series is
empty, or it is the sorted output of a successful whole-frame parse of
the `dropna`-filtered rows. -/
theorem fetchDocs_series_cases (ds : List RawDoc) :
    (fetchDocs ds).series = []
      ∨ ∃ samples,
          parseRows (dropnaRows (ds.map projectRow)) = Except.ok samples
            ∧ (fetchDocs ds).series = sortSeries samples := by
  unfold fetchDocs
  split
  · exact Or.inl rfl
  · split
    next samples heq => exact Or.inr ⟨samples, heq, rfl⟩
    next m heq => exact Or.inl rfl

/-! ### Claim theorems -/

/-- C1 (counterexample): on the single-sample series with `lambda_F = 0.3`
the displayed delta is 0.3, not 0 as the claim states: the code defaults
the previous value (not the delta) to 0, so `delta = current - 0`. -/
theorem c1_delta_counterexample :
    displayedDelta (renderMain [⟨0, 3/10, "N/A"⟩]) = some (3/10)
      ∧ ((3 : ℚ)/10) ≠ 0 := by
  constructor
  · show some ((3 : ℚ)/10 - 0) = some ((3 : ℚ)/10)
    rw [sub_zero]
  · norm_num

/-- C1 (amended): with at least two samples the delta is the latest
`lambda_F` minus the second-to-last `lambda_F`; with exactly one sample
the previous value defaults to 0, so the delta equals the latest sample's
`lambda_F` (source lines 123-124). -/
theorem c1_delta_amended :
    (∀ (l : List Sample) (a b : Sample) (rest : List Sample),
        l.reverse = a :: b :: rest →
        displayedDelta (renderMain l) = some (a.lambda_F - b.lambda_F))
      ∧ (∀ a : Sample,
          displayedDelta (renderMain [a]) = some a.lambda_F) := by
  constructor
  · intro l a b rest h
    unfold renderMain
    rw [h]
    rfl
  · intro a
    show some (a.lambda_F - 0) = some a.lambda_F
    rw [sub_zero]

/-- C1 (witness): the amended delta law evaluated on the two-sample series
0.3 then 0.5 gives delta 0.2. -/
theorem c1_delta_amended_witness :
    displayedDelta (renderMain [⟨1, 3/10, "N/A"⟩, ⟨2, 5/10, "N/A"⟩])
      = some ((5 : ℚ)/10 - 3/10) :=
  c1_delta_amended.1 [⟨1, 3/10, "N/A"⟩, ⟨2, 5/10, "N/A"⟩]
    ⟨2, 5/10, "N/A"⟩ ⟨1, 3/10, "N/A"⟩ [] rfl

/-- C2 (counterexample): a series whose latest sample has `lambda_F = 0.9`
but stored status "N/A" is displayed as Normal, while the numeric
thresholds classify 0.9 as Critical: the display is keyed on the stored
status string, not on the composite value. -/
theorem c2_classifier_counterexample :
    displayedTier (renderMain [⟨0, 9/10, "N/A"⟩]) = some Tier.Normal
      ∧ classify (9/10) = Tier.Critical
      ∧ Tier.Normal ≠ Tier.Critical := by
  refine ⟨rfl, ?_, by simp⟩
  unfold classify
  norm_num

/-- C2 (amended): the displayed tier is derived solely from the latest
sample's stored status string ("Kritik"/"Critical" give Critical,
"Riskli"/"Risky" give Risky, anything else Normal); the numeric value is
never consulted. The spec-side numeric classifier does satisfy the claimed
boundaries classify(0.7) = Risky and classify(0.5) = Normal, but it does
not drive the display. -/
theorem c2_classifier_amended :
    (∀ (l : List Sample) (latest : Sample) (rest : List Sample),
        l.reverse = latest :: rest →
        displayedTier (renderMain l) = some (displayStatus latest.status))
      ∧ classify (7/10) = Tier.Risky
      ∧ classify (1/2) = Tier.Normal := by
  refine ⟨?_, ?_, ?_⟩
  · intro l latest rest h
    unfold renderMain
    rw [h]
    rfl
  · unfold classify
    norm_num
  · unfold classify
    norm_num

/-- C2 (witness): the amended display law on a series whose latest status
string is "Kritik". -/
theorem c2_classifier_amended_witness :
    displayedTier (renderMain [⟨0, 1/10, "Kritik"⟩])
      = some (displayStatus "Kritik") :=
  c2_classifier_amended.1 [⟨0, 1/10, "Kritik"⟩] ⟨0, 1/10, "Kritik"⟩ [] rfl

/-- C3: whenever the latest sample's status string is none of "Kritik",
"Critical", "Riskli", "Risky" (which covers the "N/A" default), the
display falls through to the Normal branch, whatever the latest
`lambda_F` is (source lines 139-144). -/
theorem c3_default_normal :
    ∀ (l : List Sample) (latest : Sample) (rest : List Sample),
      l.reverse = latest :: rest →
      latest.status ≠ "Kritik" → latest.status ≠ "Critical" →
      latest.status ≠ "Riskli" → latest.status ≠ "Risky" →
      displayedTier (renderMain l) = some Tier.Normal := by
  intro l latest rest h h1 h2 h3 h4
  unfold renderMain
  rw [h]
  show some (displayStatus latest.status) = some Tier.Normal
  unfold displayStatus
  rw [if_neg (by tauto), if_neg (by tauto)]

/-- C3 (witness): a latest sample with the default status "N/A" and
`lambda_F = 0.9` is displayed Normal. -/
theorem c3_default_normal_witness :
    displayedTier (renderMain [⟨0, 9/10, "N/A"⟩]) = some Tier.Normal :=
  c3_default_normal [⟨0, 9/10, "N/A"⟩] ⟨0, 9/10, "N/A"⟩ [] rfl
    (by decide) (by decide) (by decide) (by decide)

/-- C5: every raising fetch (store unreachable or query rejected) is caught
and converted into an empty series plus a surfaced warning; the embedded
fetch is total, so no fault reaches the caller (source lines 43-68). -/
theorem c5_fetch_error_recovered :
    ∀ msg : String,
      fetch_lambda_f_data (some ()) (FetchInput.err msg)
        = ⟨[], true⟩ := by
  intro msg
  rfl

/-- C6: the normalized series produced by any fetch is sorted ascending
(monotonically non-decreasing) by timestamp (source line 63). -/
theorem c6_series_sorted :
    ∀ (db : Option Unit) (inp : FetchInput),
      List.Pairwise (fun a b : Sample => a.timestamp ≤ b.timestamp)
        (fetch_lambda_f_data db inp).series := by
  intro db inp
  exact fetch_series_sorted db inp

/-- C8: on an empty normalized series the dashboard renders the no-data
message; in particular it does not produce a metrics view with a Normal
tier, and the embedded (total) render raises nothing (source lines
116-148). -/
theorem c8_empty_no_data :
    renderMain [] = MainView.noData
      ∧ displayedTier (renderMain []) = none
      ∧ displayedDelta (renderMain []) = none := by
  exact ⟨rfl, rfl, rfl⟩

/-- Concrete fetch input for the C4 counterexample: one fully well-formed
document followed by one whose timestamp is present but unparseable. -/
def c4docs : List RawDoc :=
  [⟨some (RawTS.valid 1), some 1, none⟩,
   ⟨some (RawTS.invalid "bad"), some 1, none⟩]

/-- C4 (counterexample): with one good document and one whose timestamp is
present but unparseable, the whole series comes back empty — the good
record is not retained, contradicting per-record discard: `pd.to_datetime`
raises on the bad value and the surrounding `except` drops everything. -/
theorem c4_parse_failure_counterexample :
    (fetch_lambda_f_data (some ()) (FetchInput.docs c4docs)).series = []
      ∧ ¬ ∃ s ∈ (fetch_lambda_f_data (some ())
            (FetchInput.docs c4docs)).series, s.timestamp = 1 := by
  constructor
  · rfl
  · intro hcontra
    obtain ⟨s, hs, _⟩ := hcontra
    have hnil : (fetch_lambda_f_data (some ())
        (FetchInput.docs c4docs)).series = [] := rfl
    rw [hnil] at hs
    exact List.not_mem_nil s hs

/-- C4 (amended): a record whose timestamp is present but unparseable does
not cause a per-record discard; instead the timestamp conversion raises,
the exception handler takes over, and the entire fetch yields an empty
series plus a surfaced warning — no other record is retained. Records
with a merely absent timestamp or `lambda_F` are still dropped
per-record by `dropna`. -/
theorem c4_parse_failure_amended :
    ∀ ds : List RawDoc,
      (∃ r ∈ dropnaRows (ds.map projectRow),
          isInvalidTS r.timestamp = true) →
      fetch_lambda_f_data (some ()) (FetchInput.docs ds) = ⟨[], true⟩ := by
  intro ds hex
  obtain ⟨r, hmem, hinv⟩ := hex
  show fetchDocs ds = ⟨[], true⟩
  have hne : (ds.map projectRow).isEmpty = false := by
    have hr : r ∈ ds.map projectRow := List.mem_of_mem_filter hmem
    cases hm : ds.map projectRow with
    | nil => rw [hm] at hr; exact absurd hr (List.not_mem_nil r)
    | cons a t => rfl
  obtain ⟨m, hm⟩ := parseRows_error_of_invalid _ r hmem hinv
  unfold fetchDocs
  rw [hne, hm]
  rfl

/-- C4 (witness): the amended whole-fetch failure law on a single document
with an unparseable timestamp. -/
theorem c4_parse_failure_amended_witness :
    fetch_lambda_f_data (some ())
        (FetchInput.docs [⟨some (RawTS.invalid "bad"), some 1, none⟩])
      = ⟨[], true⟩ :=
  c4_parse_failure_amended [⟨some (RawTS.invalid "bad"), some 1, none⟩]
    ⟨⟨some (RawTS.invalid "bad"), some 1, "N/A"⟩,
     List.mem_singleton.mpr rfl, rfl⟩

/-- C7: every sample of the normalized series originates from an input
document carrying both a parseable timestamp and a `lambda_F` value (so
records missing either field contribute nothing and no defaults are
substituted), and the series is never longer than the input
(source line 60). -/
theorem c7_missing_fields_excluded :
    ∀ ds : List RawDoc,
      (fetch_lambda_f_data (some ())
          (FetchInput.docs ds)).series.length ≤ ds.length
        ∧ ∀ s ∈ (fetch_lambda_f_data (some ()) (FetchInput.docs ds)).series,
            ∃ d ∈ ds,
              d.timestamp = some (RawTS.valid s.timestamp)
                ∧ d.lambda_F = some s.lambda_F := by
  intro ds
  show (fetchDocs ds).series.length ≤ ds.length
    ∧ ∀ s ∈ (fetchDocs ds).series, _
  rcases fetchDocs_series_cases ds with hnil | ⟨samples, hok, hser⟩
  · rw [hnil]
    exact ⟨Nat.zero_le _, fun s hs => absurd hs (List.not_mem_nil s)⟩
  · constructor
    · rw [hser]
      have h1 : (sortSeries samples).length = samples.length :=
        (List.perm_insertionSort tsLE samples).length_eq
      have h2 : samples.length = (dropnaRows (ds.map projectRow)).length :=
        parseRows_length _ samples hok
      have h3 : (dropnaRows (ds.map projectRow)).length
          ≤ (ds.map projectRow).length := List.length_filter_le _ _
      rw [h1, h2]
      calc (dropnaRows (ds.map projectRow)).length
          ≤ (ds.map projectRow).length := h3
        _ = ds.length := List.length_map ds projectRow
    · intro s hs
      rw [hser] at hs
      have hs2 : s ∈ samples := (List.mem_insertionSort tsLE).mp hs
      obtain ⟨r, hr, hpr⟩ := parseRows_mem _ samples hok s hs2
      have hrd : r ∈ ds.map projectRow := List.mem_of_mem_filter hr
      obtain ⟨d, hd, hdr⟩ := List.mem_map.mp hrd
      obtain ⟨hts, hlf⟩ := parseRow_ok_fields r s hpr
      refine ⟨d, hd, ?_, ?_⟩
      · have : (projectRow d).timestamp = d.timestamp := rfl
        rw [← this, hdr]
        exact hts
      · have : (projectRow d).lambda_F = d.lambda_F := rfl
        rw [← this, hdr]
        exact hlf

/-- C7 (witness): the origin law applied to a singleton input whose
document is well-formed. -/
theorem c7_missing_fields_excluded_witness :
    ∃ d ∈ [(⟨some (RawTS.valid 5), some 1, none⟩ : RawDoc)],
      d.timestamp = some (RawTS.valid 5) ∧ d.lambda_F = some 1 :=
  (c7_missing_fields_excluded [⟨some (RawTS.valid 5), some 1, none⟩]).2
    ⟨5, 1, "N/A"⟩ (List.mem_singleton.mpr rfl)

/-- C9: in the weighted-breakdown variant (modelled from the spec, §4.3),
a present component contributes (component / 100) * weight, an absent
component contributes 0, and with all three components at 100 the
contributions sum to exactly 1 whatever the stored composite value is. -/
theorem c9_contribution_breakdown :
    (∀ (c w : ℚ), contribution (some c) w = c / 100 * w)
      ∧ (∀ w : ℚ, contribution none w = 0)
      ∧ ∀ composite : ℚ,
          contributionSum
            (mkContributionSet composite ⟨some 100, some 100, some 100⟩)
            = 1 := by
  refine ⟨fun c w => rfl, fun w => rfl, fun composite => ?_⟩
  show (100 : ℚ)/100 * (4/10) + (100 : ℚ)/100 * (3/10)
      + (100 : ℚ)/100 * (3/10) = 1
  norm_num

/-- C10: normalization is idempotent — reinjecting any fetch's normalized
series as raw documents and running the same field-presence checks,
timestamp parse and ascending sort returns the series unchanged. -/
theorem c10_normalization_idempotent :
    ∀ (db : Option Unit) (inp : FetchInput),
      (fetch_lambda_f_data (some ())
          (FetchInput.docs
            ((fetch_lambda_f_data db inp).series.map sampleToDoc))).series
        = (fetch_lambda_f_data db inp).series := by
  intro db inp
  exact renorm_of_sorted _ (fetch_series_sorted db inp)

end LambdaF
